import Mathlib

/-!
Shallow embedding of the UPnP WAN exporter (`upnp-wan-exporter-rs`).

The XML event reader (`xml::reader::EventReader`) is an external library:
it is modelled as a stream of typed items (`XmlItem`), one per call to
`reader.next()`, including the parse-error outcome.  Network interactions
(UDP receive, HTTP fetch, SOAP round trips) are modelled as oracles passed
as explicit arguments.  Everything else is translated directly from
`src/upnp.rs` and `src/metrics.rs`.
-/

/-- One item produced by the streaming XML reader: the events consumed by
`src/upnp.rs` plus the error outcome of `reader.next()`.  `other` stands for
any event the consumers ignore (start document, comments, whitespace…). -/
inductive XmlItem where
  | startElement (localName : String)
  | endElement (localName : String)
  | characters (text : String)
  | endDocument
  | parseError
  | other
deriving DecidableEq

/-- Error kinds of the client, one per `anyhow!` construction site in
`src/upnp.rs` (plus none needed for `metrics.rs`). -/
inductive UpnpError where
  | socketError
  | discoveryTimeout
  | httpError
  | serviceNotFound
  | elementNotFound (elementName : String)
  | valueParseError (elementName : String)
  | noDeviceConfigured
  | noWanCommonUrl
deriving DecidableEq

/-- `UpnpDevice` from `src/upnp.rs`. -/
structure UpnpDevice where
  location : String
  wan_common_service_url : Option String
  wan_ip_service_url : Option String
deriving DecidableEq

/-- `TrafficStats` from `src/upnp.rs`. -/
structure TrafficStats where
  bytes_sent : Nat
  bytes_received : Nat
  packets_sent : Nat
  packets_received : Nat
  connection_status : String
deriving DecidableEq

/-- `TrafficStats::default()` from `src/upnp.rs`. -/
def TrafficStats.default : TrafficStats :=
  { bytes_sent := 0
    bytes_received := 0
    packets_sent := 0
    packets_received := 0
    connection_status := "Disconnected" }

/-- Substring containment on character lists: some suffix of `s` has `pat`
as a prefix.  Models Rust `str::contains` with a string pattern. -/
def containsList (s pat : List Char) : Bool :=
  match s with
  | [] => List.isPrefixOf pat []
  | _ :: rest => List.isPrefixOf pat s || containsList rest pat

/-- Rust `str::contains` on `String`s. -/
def strContains (s pat : String) : Bool :=
  containsList s.data pat.data

/-- Strip one optional leading `+` sign, as Rust's unsigned parser does. -/
def stripLeadingPlus : List Char → List Char
  | c :: rest => if c = '+' then rest else c :: rest
  | [] => []

/-- Model of Rust `str::parse::<u64>()` on a character list: an optional
leading `+`, then at least one ASCII digit, value below `2 ^ 64`. -/
def parseU64Chars (cs : List Char) : Option Nat :=
  let cs' := stripLeadingPlus cs
  if cs'.isEmpty then none
  else if cs'.all Char.isDigit then
    let n := cs'.foldl (fun a c => a * 10 + (c.toNat - 48)) 0
    if n < 2 ^ 64 then some n else none
  else none

/-- Model of Rust `str::parse::<u64>()`. -/
def parseU64 (s : String) : Option Nat :=
  parseU64Chars s.data

/-! ### `UpnpClient::extract_location` -/

/-- Model of Rust `str::starts_with` on `String`s, via character lists. -/
def strStartsWith (s pre : String) : Bool :=
  List.isPrefixOf pre.data s.data

/-- Model of one line lowercased, as in Rust `line.to_lowercase()`
(character-wise lowercasing; the only consumer compares against an ASCII
prefix, where this agrees with Unicode lowercasing). -/
def lowercase (s : String) : String :=
  ⟨s.data.map Char.toLower⟩

/-- Everything after the first `:` of a line (empty when there is none):
the value computation `line.split(':').skip(1).collect().join(":")` of
`extract_location`. -/
def afterFirstColon : List Char → List Char
  | [] => []
  | c :: rest => if c = ':' then rest else afterFirstColon rest

/-- Model of Rust `str::trim`: whitespace stripped from both ends. -/
def trimChars (cs : List Char) : List Char :=
  ((cs.dropWhile Char.isWhitespace).reverse.dropWhile Char.isWhitespace).reverse

/-- `UpnpClient::extract_location` from `src/upnp.rs`, on the line list of
the received datagram: the first line whose lowercase form starts with
`location:` yields everything after the first colon, trimmed. -/
def extract_location : List String → Option String
  | [] => none
  | l :: rest =>
    if strStartsWith (lowercase l) "location:" then
      some ⟨trimChars (afterFirstColon l.data)⟩
    else
      extract_location rest

/-! ### `UpnpClient::parse_service_urls` -/

/-- Loop state of `UpnpClient::parse_service_urls`. -/
structure SState where
  wan_common_url : Option String
  wan_ip_url : Option String
  current_service_type : String
  current_control_url : String
  in_service : Bool
  in_service_type : Bool
  in_control_url : Bool
deriving DecidableEq

/-- Initial loop state of `parse_service_urls`. -/
def initSState : SState :=
  { wan_common_url := none
    wan_ip_url := none
    current_service_type := ""
    current_control_url := ""
    in_service := false
    in_service_type := false
    in_control_url := false }

/-- URL normalization at the end of a `service` element in
`parse_service_urls`: an accumulated control URL starting with `http` is
kept unmodified, otherwise the hardcoded host:port is prepended. -/
def makeFullUrl (control_url : String) : String :=
  if strStartsWith control_url "http" then control_url
  else "http://192.168.3.1:1900" ++ control_url

/-- One non-terminating step of the `parse_service_urls` loop, translated
match arm by match arm from `src/upnp.rs`. -/
def serviceStep (st : SState) (it : XmlItem) : SState :=
  match it with
  | .startElement n =>
    if n = "service" then
      { st with in_service := true, current_service_type := "", current_control_url := "" }
    else if n = "serviceType" ∧ st.in_service then
      { st with in_service_type := true }
    else if n = "controlURL" ∧ st.in_service then
      { st with in_control_url := true }
    else st
  | .endElement n =>
    if n = "service" then
      let st' :=
        if strContains st.current_service_type "WANCommonInterfaceConfig" then
          { st with wan_common_url := some (makeFullUrl st.current_control_url) }
        else if strContains st.current_service_type "WANIPConnection" then
          { st with wan_ip_url := some (makeFullUrl st.current_control_url) }
        else st
      { st' with in_service := false }
    else if n = "serviceType" then { st with in_service_type := false }
    else if n = "controlURL" then { st with in_control_url := false }
    else st
  | .characters t =>
    if st.in_service_type then { st with current_service_type := t }
    else if st.in_control_url then { st with current_control_url := t }
    else st
  | _ => st

/-- The loop of `parse_service_urls` breaks on `EndDocument` and on a
reader error. -/
def isTerminator : XmlItem → Bool
  | .endDocument => true
  | .parseError => true
  | _ => false

/-- The event loop of `parse_service_urls`. -/
def serviceLoop (st : SState) : List XmlItem → SState
  | [] => st
  | it :: rest =>
    if isTerminator it then st else serviceLoop (serviceStep st it) rest

/-- `UpnpClient::parse_service_urls` from `src/upnp.rs`.  The second
argument models `_base_url`, which the source ignores. -/
def parse_service_urls (items : List XmlItem) (base_url : String) :
    Except UpnpError (Option String × Option String) :=
  let final := serviceLoop initSState items
  if final.wan_common_url.isNone then .error .serviceNotFound
  else .ok (final.wan_common_url, final.wan_ip_url)

/-! ### `UpnpClient::parse_u64_response` and `parse_string_response` -/

/-- The event loop of `UpnpClient::parse_u64_response`. -/
def u64Loop (elementName : String) : Bool → List XmlItem → Except UpnpError Nat
  | _, [] => .error (.elementNotFound elementName)
  | inTarget, it :: rest =>
    match it with
    | .startElement n =>
      u64Loop elementName (if n = elementName then true else inTarget) rest
    | .characters t =>
      if inTarget then
        match parseU64 t with
        | some v => .ok v
        | none => .error (.valueParseError elementName)
      else u64Loop elementName inTarget rest
    | .endElement n =>
      u64Loop elementName (if n = elementName then false else inTarget) rest
    | .endDocument => .error (.elementNotFound elementName)
    | .parseError => .error (.elementNotFound elementName)
    | .other => u64Loop elementName inTarget rest

/-- `UpnpClient::parse_u64_response` from `src/upnp.rs`. -/
def parse_u64_response (items : List XmlItem) (elementName : String) :
    Except UpnpError Nat :=
  u64Loop elementName false items

/-- The event loop of `UpnpClient::parse_string_response`. -/
def stringLoop (elementName : String) : Bool → List XmlItem → Except UpnpError String
  | _, [] => .error (.elementNotFound elementName)
  | inTarget, it :: rest =>
    match it with
    | .startElement n =>
      stringLoop elementName (if n = elementName then true else inTarget) rest
    | .characters t =>
      if inTarget then .ok t
      else stringLoop elementName inTarget rest
    | .endElement n =>
      stringLoop elementName (if n = elementName then false else inTarget) rest
    | .endDocument => .error (.elementNotFound elementName)
    | .parseError => .error (.elementNotFound elementName)
    | .other => stringLoop elementName inTarget rest

/-- `UpnpClient::parse_string_response` from `src/upnp.rs`. -/
def parse_string_response (items : List XmlItem) (elementName : String) :
    Except UpnpError String :=
  stringLoop elementName false items

/-! ### `UpnpClient::discover_device` and `get_traffic_stats` -/

/-- Outcome of the single bounded UDP receive in `discover_device`:
timeout, socket error, or one datagram (given as its list of lines). -/
inductive RecvOutcome where
  | timeout
  | sockErr
  | datagram (lines : List String)

/-- `UpnpClient::discover_device` followed by `setup_service`, from
`src/upnp.rs`.  `dev0` is the client's device field before the call, the
result pairs the returned `Result` with the device field after the call.
`descFetch` models the HTTP fetch of the description document: either a
transport error or the fetched body as an XML item stream. -/
def discover_device (dev0 : Option UpnpDevice) (recv : RecvOutcome)
    (descFetch : Except Unit (List XmlItem)) :
    Except UpnpError Unit × Option UpnpDevice :=
  match recv with
  | .sockErr => (.error .socketError, dev0)
  | .timeout => (.error .discoveryTimeout, dev0)
  | .datagram lines =>
    match extract_location lines with
    | none => (.ok (), dev0)
    | some loc =>
      let dev1 : UpnpDevice :=
        { location := loc, wan_common_service_url := none, wan_ip_service_url := none }
      match descFetch with
      | .error _ => (.error .httpError, some dev1)
      | .ok items =>
        match parse_service_urls items loc with
        | .error e => (.error e, some dev1)
        | .ok (common, ip) =>
          (.ok (), some { location := loc, wan_common_service_url := common,
                          wan_ip_service_url := ip })

/-- `UpnpClient::get_traffic_stats` from `src/upnp.rs`.  The five SOAP
getters involve the network, so their results are passed as oracles; the
function requires a configured device with a present common-interface URL
and then folds each successful query result into the default snapshot. -/
def get_traffic_stats (dev : Option UpnpDevice)
    (qBytesSent qBytesRecv qPacketsSent qPacketsRecv : Except UpnpError Nat)
    (qLinkStatus : Except UpnpError String) : Except UpnpError TrafficStats :=
  match dev with
  | none => .error .noDeviceConfigured
  | some d =>
    match d.wan_common_service_url with
    | none => .error .noWanCommonUrl
    | some _ =>
      let stats := TrafficStats.default
      let stats := match qBytesSent with
        | .ok v => { stats with bytes_sent := v }
        | .error _ => stats
      let stats := match qBytesRecv with
        | .ok v => { stats with bytes_received := v }
        | .error _ => stats
      let stats := match qPacketsSent with
        | .ok v => { stats with packets_sent := v }
        | .error _ => stats
      let stats := match qPacketsRecv with
        | .ok v => { stats with packets_received := v }
        | .error _ => stats
      let stats := match qLinkStatus with
        | .ok v => { stats with connection_status := v }
        | .error _ => stats
      .ok stats

/-! ### `MetricsCollector::collect_metrics` -/

/-- Observable outcome of `MetricsCollector::collect_metrics` from
`src/metrics.rs`: the returned `(String, bool)` pair together with the
value the `upnp_wan_scrape_error` gauge was set to (1 or 0). -/
structure CollectOutcome where
  output : String
  returned_error : Bool
  scrape_error_gauge : Nat
deriving DecidableEq

/-- `MetricsCollector::collect_metrics` from `src/metrics.rs`.  `discover`
and `stats` are the results of `discover_device` and `get_traffic_stats`
(network oracles); `encode` is the result of encoding the Prometheus
registry to text. -/
def collect_metrics (discover : Except UpnpError Unit)
    (stats : Except UpnpError TrafficStats) (encode : Except Unit String) :
    CollectOutcome :=
  let has_error : Bool :=
    match discover with
    | .ok _ =>
      match stats with
      | .ok _ => false
      | .error _ => true
    | .error _ => true
  let gauge : Nat := if has_error then 1 else 0
  match encode with
  | .ok output => { output := output, returned_error := false, scrape_error_gauge := gauge }
  | .error _ =>
    { output := "Internal Server Error", returned_error := true, scrape_error_gauge := gauge }

/-! ### Spec-side apparatus: canonical documents and decimal text -/

/-- One `service` entry of a device-description document: the character
data of its `serviceType` and `controlURL` children. -/
structure SvcEntry where
  serviceType : String
  controlURL : String
deriving DecidableEq

/-- Token stream of one well-formed `service` element. -/
def encodeService (s : SvcEntry) : List XmlItem :=
  [.startElement "service", .startElement "serviceType", .characters s.serviceType,
   .endElement "serviceType", .startElement "controlURL", .characters s.controlURL,
   .endElement "controlURL", .endElement "service"]

/-- Token stream of a well-formed device-description document listing the
given services. -/
def encodeServices (svcs : List SvcEntry) : List XmlItem :=
  (svcs.map encodeService).flatten ++ [.endDocument]

/-- Effect of one full `service` element on the `parse_service_urls` loop
state: the eight `serviceStep`s of its token block. -/
def applyService (st : SState) (s : SvcEntry) : SState :=
  serviceStep (serviceStep (serviceStep (serviceStep (serviceStep (serviceStep (serviceStep
    (serviceStep st (.startElement "service"))
    (.startElement "serviceType")) (.characters s.serviceType))
    (.endElement "serviceType")) (.startElement "controlURL")) (.characters s.controlURL))
    (.endElement "controlURL")) (.endElement "service")

/-- Whether some listed service's type contains `WANCommonInterfaceConfig`. -/
def hasCommonService (svcs : List SvcEntry) : Bool :=
  svcs.any fun s => strContains s.serviceType "WANCommonInterfaceConfig"

/-- Little-endian base-10 digits of `n`, with explicit fuel so that the
definition is structurally recursive.  Correct whenever `n ≤ fuel`. -/
def digitsRev : Nat → Nat → List Nat
  | _, 0 => []
  | 0, _ + 1 => []
  | fuel + 1, n + 1 => ((n + 1) % 10) :: digitsRev fuel ((n + 1) / 10)

/-- Value of a little-endian digit list. -/
def digitsVal : List Nat → Nat
  | [] => 0
  | d :: ds => d + 10 * digitsVal ds

/-- The ASCII character of a decimal digit. -/
def toDigitChar (d : Nat) : Char :=
  Char.ofNat (48 + d)

/-- The decimal text of `n`, most significant digit first. -/
def decimalRepr (n : Nat) : String :=
  if n = 0 then "0" else ⟨(digitsRev n n).reverse.map toDigitChar⟩

/-- Token stream of a SOAP response whose target element holds `text`. -/
def soapWrap (elementName : String) (text : String) : List XmlItem :=
  [.other, .startElement "Envelope", .startElement "Body",
   .startElement "GetTotalBytesSentResponse", .startElement elementName,
   .characters text, .endElement elementName,
   .endElement "GetTotalBytesSentResponse", .endElement "Body",
   .endElement "Envelope", .endDocument]

/-- The value of a counter query, or the snapshot default if it failed. -/
def okOr {α : Type} (r : Except UpnpError α) (dflt : α) : α :=
  match r with
  | .ok v => v
  | .error _ => dflt

/-! ### Helper lemmas -/

theorem extract_location_eq_none (lines : List String)
    (h : ∀ l ∈ lines, strStartsWith (lowercase l) "location:" = false) :
    extract_location lines = none := by
  induction lines with
  | nil => rfl
  | cons l rest ih =>
    have hl := h l (by simp)
    simp [extract_location, hl]
    exact ih fun x hx => h x (by simp [hx])

theorem serviceLoop_stop_at_error (pre : List XmlItem) :
    ∀ (st : SState) (rest : List XmlItem),
      serviceLoop st (pre ++ XmlItem.parseError :: rest) = serviceLoop st pre := by
  induction pre with
  | nil => intro st rest; simp [serviceLoop, isTerminator]
  | cons it pre ih =>
    intro st rest
    simp only [List.cons_append, serviceLoop]
    by_cases h : isTerminator it = true
    · simp [h]
    · simp only [Bool.not_eq_true] at h
      simp [h, ih]

theorem u64Loop_stop_at_error (pre : List XmlItem) :
    ∀ (name : String) (inTarget : Bool) (rest : List XmlItem),
      u64Loop name inTarget (pre ++ XmlItem.parseError :: rest) = u64Loop name inTarget pre := by
  induction pre with
  | nil => intro name inTarget rest; rfl
  | cons it pre ih =>
    intro name inTarget rest
    cases it with
    | startElement n => simp only [List.cons_append, u64Loop]; exact ih ..
    | endElement n => simp only [List.cons_append, u64Loop]; exact ih ..
    | characters t =>
      simp only [List.cons_append, u64Loop]
      by_cases hi : inTarget = true
      · simp [hi]
      · simp only [Bool.not_eq_true] at hi
        simp [hi, ih]
    | endDocument => rfl
    | parseError => rfl
    | other => simp only [List.cons_append, u64Loop]; exact ih ..

theorem stringLoop_stop_at_error (pre : List XmlItem) :
    ∀ (name : String) (inTarget : Bool) (rest : List XmlItem),
      stringLoop name inTarget (pre ++ XmlItem.parseError :: rest) = stringLoop name inTarget pre := by
  induction pre with
  | nil => intro name inTarget rest; rfl
  | cons it pre ih =>
    intro name inTarget rest
    cases it with
    | startElement n => simp only [List.cons_append, stringLoop]; exact ih ..
    | endElement n => simp only [List.cons_append, stringLoop]; exact ih ..
    | characters t =>
      simp only [List.cons_append, stringLoop]
      by_cases hi : inTarget = true
      · simp [hi]
      · simp only [Bool.not_eq_true] at hi
        simp [hi, ih]
    | endDocument => rfl
    | parseError => rfl
    | other => simp only [List.cons_append, stringLoop]; exact ih ..

theorem parse_service_urls_ok_isSome (items : List XmlItem) (b : String)
    (c ip : Option String)
    (h : parse_service_urls items b = .ok (c, ip)) : c.isSome = true := by
  simp only [parse_service_urls] at h
  cases ho : (serviceLoop initSState items).wan_common_url with
  | none => rw [ho] at h; simp at h
  | some v =>
    rw [ho] at h
    simp at h
    rw [← h.1]
    rfl

/-! ### Claim theorems, batch 1 -/

/-- C1: with a configured device carrying a common-interface URL,
`get_traffic_stats` returns `Ok` with each field equal to its own query's
value when that query succeeded and to its default otherwise, for every
combination of per-query outcomes; with an absent device or absent common
URL it returns the corresponding error for every combination of query
outcomes (so no counter query influences that result). -/
theorem get_traffic_stats_partial_success (loc c : String) (ip : Option String)
    (qBS qBR qPS qPR : Except UpnpError Nat) (qLS : Except UpnpError String) :
    get_traffic_stats (some ⟨loc, some c, ip⟩) qBS qBR qPS qPR qLS =
      .ok { bytes_sent := okOr qBS 0, bytes_received := okOr qBR 0,
            packets_sent := okOr qPS 0, packets_received := okOr qPR 0,
            connection_status := okOr qLS "Disconnected" } ∧
    get_traffic_stats none qBS qBR qPS qPR qLS = .error .noDeviceConfigured ∧
    get_traffic_stats (some ⟨loc, none, ip⟩) qBS qBR qPS qPR qLS = .error .noWanCommonUrl := by
  refine ⟨?_, rfl, rfl⟩
  cases qBS <;> cases qBR <;> cases qPS <;> cases qPR <;> cases qLS <;> rfl

/-- C2 evaluation: at the spec's end-to-end input (gateway location
`http://192.168.1.1:1900/desc.xml`, relative control URL
`/upnp/control/WANCommonIFC1`) the code records the URL against the
hardcoded host `192.168.3.1:1900`, not against the location's host. -/
theorem parse_service_urls_hardcoded_host :
    parse_service_urls
      (encodeServices [{ serviceType := "urn:schemas-upnp-org:service:WANCommonInterfaceConfig:1",
                         controlURL := "/upnp/control/WANCommonIFC1" }])
      "http://192.168.1.1:1900/desc.xml" =
      .ok (some "http://192.168.3.1:1900/upnp/control/WANCommonIFC1", none) := by
  rfl

/-- C3: a datagram none of whose lines lowercase-starts with `location:`
makes `discover_device` return `Ok` with the device left unset, and every
subsequent `get_traffic_stats` on that client errors. -/
theorem discover_device_no_location (lines : List String)
    (descFetch : Except Unit (List XmlItem))
    (h : ∀ l ∈ lines, strStartsWith (lowercase l) "location:" = false) :
    discover_device none (.datagram lines) descFetch = (.ok (), none) ∧
      ∀ (qBS qBR qPS qPR : Except UpnpError Nat) (qLS : Except UpnpError String),
        get_traffic_stats none qBS qBR qPS qPR qLS = .error .noDeviceConfigured := by
  refine ⟨?_, fun _ _ _ _ _ => rfl⟩
  simp [discover_device, extract_location_eq_none lines h]

/-- Witness for C3 at a concrete SSDP response with no LOCATION header. -/
theorem discover_device_no_location_witness :
    (∀ l ∈ ["HTTP/1.1 200 OK", "ST: upnp:rootdevice", "USN: uuid:2f402f80"],
        strStartsWith (lowercase l) "location:" = false) ∧
    discover_device none (.datagram ["HTTP/1.1 200 OK", "ST: upnp:rootdevice", "USN: uuid:2f402f80"])
        (.ok []) = (.ok (), none) ∧
    get_traffic_stats none (.ok 1000) (.ok 2000) (.ok 10) (.ok 20) (.ok "Up") =
      .error .noDeviceConfigured := by
  refine ⟨by decide, (discover_device_no_location _ (.ok []) (by decide)).1,
    (discover_device_no_location ["HTTP/1.1 200 OK", "ST: upnp:rootdevice", "USN: uuid:2f402f80"]
      (.ok []) (by decide)).2 _ _ _ _ _⟩

/-- C6 counterexample: a run in which discovery failed but metric encoding
succeeded returns `false` in the boolean, so the returned boolean is not
true for every fatal collection failure. -/
theorem collect_metrics_flag_false_on_fatal :
    (collect_metrics (.error .discoveryTimeout) (.error .noDeviceConfigured)
      (.ok "upnp_wan_scrape_error 1\n")).returned_error = false := by
  rfl

/-- C6 amended: the fatal-vs-partial distinction is carried by the
`upnp_wan_scrape_error` gauge, set to 1 exactly when discovery or stats
collection failed; the returned boolean is true exactly when encoding the
metrics text failed. -/
theorem collect_metrics_error_channels (d : Except UpnpError Unit)
    (s : Except UpnpError TrafficStats) (e : Except Unit String) :
    ((collect_metrics d s e).scrape_error_gauge = 1 ↔
      ((∃ er, d = .error er) ∨ (∃ er, s = .error er))) ∧
    ((collect_metrics d s e).returned_error = true ↔ e = .error ()) := by
  cases d <;> cases s <;> cases e <;> simp [collect_metrics]

/-- C7: the receive timeout and a receive-side socket error map to two
distinct error kinds of `discover_device`. -/
theorem discover_device_timeout_vs_socket (dev0 : Option UpnpDevice)
    (descFetch : Except Unit (List XmlItem)) :
    discover_device dev0 .timeout descFetch = (.error .discoveryTimeout, dev0) ∧
    discover_device dev0 .sockErr descFetch = (.error .socketError, dev0) ∧
    UpnpError.discoveryTimeout ≠ UpnpError.socketError :=
  ⟨rfl, rfl, by decide⟩

/-- C8: on a reader parse error every XML-consuming routine stops the
traversal there: the result over any stream with an error item equals the
result over the clean prefix before the error, so the URLs recorded before
the error still apply and the response parsers fall through to their
element-not-found error if no value was returned before it. -/
theorem xml_consumers_stop_at_error (pre rest : List XmlItem) (base name : String) :
    parse_service_urls (pre ++ XmlItem.parseError :: rest) base = parse_service_urls pre base ∧
    parse_u64_response (pre ++ XmlItem.parseError :: rest) name = parse_u64_response pre name ∧
    parse_string_response (pre ++ XmlItem.parseError :: rest) name =
      parse_string_response pre name := by
  refine ⟨?_, ?_, ?_⟩
  · unfold parse_service_urls; rw [serviceLoop_stop_at_error]
  · unfold parse_u64_response; rw [u64Loop_stop_at_error]
  · unfold parse_string_response; rw [stringLoop_stop_at_error]

/-- C9: whenever `discover_device` on a fresh client returns `Ok` and
leaves a device set, that device's common-interface URL is present. -/
theorem discovered_device_has_common_url (recv : RecvOutcome)
    (descFetch : Except Unit (List XmlItem)) (d : UpnpDevice)
    (h : discover_device none recv descFetch = (.ok (), some d)) :
    d.wan_common_service_url.isSome = true := by
  cases recv with
  | timeout => simp [discover_device] at h
  | sockErr => simp [discover_device] at h
  | datagram lines =>
    simp only [discover_device] at h
    cases hl : extract_location lines with
    | none => rw [hl] at h; simp at h
    | some loc =>
      rw [hl] at h
      simp only at h
      cases descFetch with
      | error u => simp at h
      | ok items =>
        simp only at h
        cases hp : parse_service_urls items loc with
        | error e => rw [hp] at h; simp at h
        | ok pr =>
          obtain ⟨c, ip⟩ := pr
          rw [hp] at h
          simp at h
          rw [← h]
          exact parse_service_urls_ok_isSome items loc c ip hp

/-- Witness for C9 at a concrete discovery run that sets a device. -/
theorem discovered_device_has_common_url_witness :
    discover_device none (.datagram ["LOCATION: http://gw.example/desc.xml"])
        (.ok (encodeServices
          [{ serviceType := "urn:schemas-upnp-org:service:WANCommonInterfaceConfig:1",
             controlURL := "http://gw.example/ctl" }])) =
      (.ok (), some { location := "http://gw.example/desc.xml",
                      wan_common_service_url := some "http://gw.example/ctl",
                      wan_ip_service_url := none }) ∧
    ({ location := "http://gw.example/desc.xml",
       wan_common_service_url := some "http://gw.example/ctl",
       wan_ip_service_url := none } : UpnpDevice).wan_common_service_url.isSome = true :=
  ⟨rfl, discovered_device_has_common_url
    (.datagram ["LOCATION: http://gw.example/desc.xml"])
    (.ok (encodeServices
      [{ serviceType := "urn:schemas-upnp-org:service:WANCommonInterfaceConfig:1",
         controlURL := "http://gw.example/ctl" }]))
    { location := "http://gw.example/desc.xml",
      wan_common_service_url := some "http://gw.example/ctl",
      wan_ip_service_url := none } (by rfl)⟩

/-- C10: parsing the physical-link-status response is deterministic in the
response body: two parses of the same body return the same result. -/
theorem parse_string_response_deterministic (items1 items2 : List XmlItem) (name : String)
    (h : items1 = items2) :
    parse_string_response items1 name = parse_string_response items2 name := by
  rw [h]

/-- Witness for C10 at a concrete link-status response. -/
theorem parse_string_response_deterministic_witness :
    parse_string_response (soapWrap "NewPhysicalLinkStatus" "Up") "NewPhysicalLinkStatus" =
      .ok "Up" ∧
    parse_string_response (soapWrap "NewPhysicalLinkStatus" "Up") "NewPhysicalLinkStatus" =
      parse_string_response (soapWrap "NewPhysicalLinkStatus" "Up") "NewPhysicalLinkStatus" :=
  ⟨rfl, parse_string_response_deterministic _ _ _ rfl⟩

/-! ### Decimal text machinery for C4 -/

theorem digitsRev_lt_ten (fuel : Nat) : ∀ n d, d ∈ digitsRev fuel n → d < 10 := by
  induction fuel with
  | zero => intro n d hd; cases n <;> simp [digitsRev] at hd
  | succ fuel ih =>
    intro n d hd
    cases n with
    | zero => simp [digitsRev] at hd
    | succ m =>
      simp only [digitsRev, List.mem_cons] at hd
      rcases hd with h | h
      · rw [h]; exact Nat.mod_lt _ (by norm_num)
      · exact ih _ _ h

theorem digitsRev_val (fuel : Nat) : ∀ n, n ≤ fuel → digitsVal (digitsRev fuel n) = n := by
  induction fuel with
  | zero =>
    intro n hn
    have : n = 0 := Nat.le_zero.mp hn
    rw [this]; rfl
  | succ fuel ih =>
    intro n hn
    cases n with
    | zero => rfl
    | succ m =>
      have hdiv : (m + 1) / 10 ≤ fuel := by
        have := Nat.div_lt_self (Nat.succ_pos m) (by norm_num : 1 < 10)
        omega
      simp only [digitsRev, digitsVal, ih _ hdiv]
      omega

theorem digitsRev_ne_nil (fuel n : Nat) (hn : n ≠ 0) (hf : n ≤ fuel) :
    digitsRev fuel n ≠ [] := by
  cases fuel with
  | zero => omega
  | succ fuel =>
    cases n with
    | zero => omega
    | succ m => simp [digitsRev]

theorem toDigitChar_facts :
    ∀ d < 10, (toDigitChar d).isDigit = true ∧ toDigitChar d ≠ '+' ∧
      (toDigitChar d).toNat - 48 = d := by decide

theorem foldl_digit_chars (ds : List Nat) :
    ∀ a : Nat, (∀ d ∈ ds, d < 10) →
      (ds.reverse.map toDigitChar).foldl (fun a c => a * 10 + (c.toNat - 48)) a =
        a * 10 ^ ds.length + digitsVal ds := by
  induction ds with
  | nil => intro a _; simp [digitsVal]
  | cons d tl ih =>
    intro a hds
    have hd : d < 10 := hds d (by simp)
    have htl : ∀ x ∈ tl, x < 10 := fun x hx => hds x (by simp [hx])
    simp only [List.reverse_cons, List.map_append, List.foldl_append, List.map_cons,
      List.map_nil, List.foldl_cons, List.foldl_nil]
    rw [ih a htl, (toDigitChar_facts d hd).2.2]
    simp only [digitsVal, List.length_cons]
    ring

theorem stripLeadingPlus_eq_self (cs : List Char) (h : ∀ c ∈ cs, c ≠ '+') :
    stripLeadingPlus cs = cs := by
  cases cs with
  | nil => rfl
  | cons c rest => simp [stripLeadingPlus, h c (by simp)]

theorem parseU64Chars_of_digits (cs : List Char) (n : Nat)
    (hne : cs ≠ []) (hplus : ∀ c ∈ cs, c ≠ '+') (hdig : ∀ c ∈ cs, c.isDigit = true)
    (hfold : cs.foldl (fun a c => a * 10 + (c.toNat - 48)) 0 = n) (hn : n < 2 ^ 64) :
    parseU64Chars cs = some n := by
  unfold parseU64Chars
  rw [stripLeadingPlus_eq_self cs hplus]
  have h1 : cs.isEmpty = false := by
    cases cs with
    | nil => exact absurd rfl hne
    | cons c rest => rfl
  have h2 : cs.all Char.isDigit = true := List.all_eq_true.mpr hdig
  simp only [h1, h2, Bool.false_eq_true, if_false, if_true, hfold, hn, if_pos]

theorem parseU64_decimalRepr (n : Nat) (hn : n < 2 ^ 64) :
    parseU64 (decimalRepr n) = some n := by
  by_cases h0 : n = 0
  · subst h0; rfl
  · have hlt : ∀ d ∈ digitsRev n n, d < 10 := fun d hd => digitsRev_lt_ten n n d hd
    have hnil : digitsRev n n ≠ [] := digitsRev_ne_nil n n h0 le_rfl
    have hval : digitsVal (digitsRev n n) = n := digitsRev_val n n le_rfl
    unfold parseU64 decimalRepr
    rw [if_neg h0]
    show parseU64Chars ((digitsRev n n).reverse.map toDigitChar) = some n
    apply parseU64Chars_of_digits _ n
    · simp [hnil]
    · intro c hc
      obtain ⟨d, hd, rfl⟩ := List.mem_map.mp hc
      exact (toDigitChar_facts d (hlt d (List.mem_reverse.mp hd))).2.1
    · intro c hc
      obtain ⟨d, hd, rfl⟩ := List.mem_map.mp hc
      exact (toDigitChar_facts d (hlt d (List.mem_reverse.mp hd))).1
    · rw [foldl_digit_chars _ 0 hlt, hval]
      ring
    · exact hn

theorem u64Loop_not_found (elementName : String) (items : List XmlItem)
    (h : ∀ it ∈ items, it ≠ XmlItem.startElement elementName) :
    u64Loop elementName false items = .error (.elementNotFound elementName) := by
  induction items with
  | nil => rfl
  | cons it rest ih =>
    have hrest : ∀ x ∈ rest, x ≠ XmlItem.startElement elementName :=
      fun x hx => h x (List.mem_cons_of_mem _ hx)
    cases it with
    | startElement n =>
      have hne : ¬(n = elementName) := by
        intro he
        subst he
        exact (h (XmlItem.startElement n) (List.mem_cons_self _ _)) rfl
      simp [u64Loop, hne, ih hrest]
    | characters t => simp [u64Loop, ih hrest]
    | endElement n => simp [u64Loop, ih hrest]
    | endDocument => rfl
    | parseError => rfl
    | other => simp [u64Loop, ih hrest]

/-- C4: the numeric SOAP parser returns exactly `n` when the target
element's character data is the decimal text of an unsigned 64-bit `n`;
returns a value-parse error on non-numeric character data; returns the
distinct element-not-found error when the target element never appears;
and the two error kinds are distinct. -/
theorem parse_u64_response_values :
    (∀ n : Nat, n < 2 ^ 64 →
      parse_u64_response (soapWrap "NewTotalBytesSent" (decimalRepr n)) "NewTotalBytesSent" =
        .ok n) ∧
    parse_u64_response (soapWrap "NewTotalBytesSent" "notanumber") "NewTotalBytesSent" =
      .error (.valueParseError "NewTotalBytesSent") ∧
    (∀ (items : List XmlItem) (elementName : String),
      (∀ it ∈ items, it ≠ XmlItem.startElement elementName) →
      parse_u64_response items elementName = .error (.elementNotFound elementName)) ∧
    (∀ a b : String, UpnpError.valueParseError a ≠ UpnpError.elementNotFound b) := by
  refine ⟨?_, rfl, fun items elementName h => u64Loop_not_found elementName items h, ?_⟩
  · intro n hn
    show u64Loop "NewTotalBytesSent" false (soapWrap "NewTotalBytesSent" (decimalRepr n)) = .ok n
    simp only [soapWrap, u64Loop]
    norm_num
    rw [parseU64_decimalRepr n hn]
  · intro a b
    simp

/-- Witness for C4 at the spec's concrete inputs. -/
theorem parse_u64_response_values_witness :
    decimalRepr 12345 = "12345" ∧
    (12345 : Nat) < 2 ^ 64 ∧
    parse_u64_response (soapWrap "NewTotalBytesSent" (decimalRepr 12345)) "NewTotalBytesSent" =
      .ok 12345 ∧
    parse_u64_response [XmlItem.startElement "Envelope", .endElement "Envelope", .endDocument]
      "NewTotalBytesSent" = .error (.elementNotFound "NewTotalBytesSent") := by
  refine ⟨rfl, by norm_num, parse_u64_response_values.1 12345 (by norm_num),
    parse_u64_response_values.2.2.1 _ "NewTotalBytesSent" (by decide)⟩

/-! ### Canonical-document machinery for C5 -/

theorem serviceLoop_encodeService (st : SState) (s : SvcEntry) (rest : List XmlItem) :
    serviceLoop st (encodeService s ++ rest) = serviceLoop (applyService st s) rest := rfl

theorem applyService_common (st : SState) (s : SvcEntry) :
    (applyService st s).wan_common_url =
      if strContains s.serviceType "WANCommonInterfaceConfig" then
        some (makeFullUrl s.controlURL)
      else st.wan_common_url := by
  by_cases h1 : strContains s.serviceType "WANCommonInterfaceConfig" = true
  · simp [applyService, serviceStep, h1]
  · simp only [Bool.not_eq_true] at h1
    by_cases h2 : strContains s.serviceType "WANIPConnection" = true
    · simp [applyService, serviceStep, h1, h2]
    · simp only [Bool.not_eq_true] at h2
      simp [applyService, serviceStep, h1, h2]

theorem serviceLoop_encodeServices (svcs : List SvcEntry) :
    ∀ st : SState, serviceLoop st (encodeServices svcs) = svcs.foldl applyService st := by
  induction svcs with
  | nil => intro st; rfl
  | cons s tl ih =>
    intro st
    simp only [encodeServices, List.map_cons, List.flatten_cons, List.append_assoc,
      List.foldl_cons]
    rw [serviceLoop_encodeService]
    exact ih (applyService st s)

theorem foldl_applyService_of_no_common (svcs : List SvcEntry) :
    ∀ st : SState,
      (∀ s ∈ svcs, strContains s.serviceType "WANCommonInterfaceConfig" = false) →
      (svcs.foldl applyService st).wan_common_url = st.wan_common_url := by
  induction svcs with
  | nil => intro st _; rfl
  | cons s tl ih =>
    intro st h
    have hs : strContains s.serviceType "WANCommonInterfaceConfig" = false :=
      h s (List.mem_cons_self _ _)
    have htl : ∀ x ∈ tl, strContains x.serviceType "WANCommonInterfaceConfig" = false :=
      fun x hx => h x (List.mem_cons_of_mem _ hx)
    rw [List.foldl_cons, ih _ htl, applyService_common, if_neg (by rw [hs]; exact fun c => nomatch c)]

theorem foldl_applyService_isSome (svcs : List SvcEntry) :
    ∀ st : SState, st.wan_common_url.isSome = true →
      (svcs.foldl applyService st).wan_common_url.isSome = true := by
  induction svcs with
  | nil => intro st h; exact h
  | cons s tl ih =>
    intro st h
    rw [List.foldl_cons]
    apply ih
    rw [applyService_common]
    by_cases hs : strContains s.serviceType "WANCommonInterfaceConfig" = true
    · simp [hs]
    · simp only [Bool.not_eq_true] at hs
      simp [hs, h]

theorem foldl_applyService_of_common (svcs : List SvcEntry) :
    ∀ st : SState,
      (∃ s ∈ svcs, strContains s.serviceType "WANCommonInterfaceConfig" = true) →
      (svcs.foldl applyService st).wan_common_url.isSome = true := by
  induction svcs with
  | nil => intro st h; obtain ⟨s, hs, _⟩ := h; cases hs
  | cons s tl ih =>
    intro st h
    rw [List.foldl_cons]
    by_cases hs : strContains s.serviceType "WANCommonInterfaceConfig" = true
    · apply foldl_applyService_isSome
      rw [applyService_common, if_pos hs]
      rfl
    · obtain ⟨x, hx, hxc⟩ := h
      rcases List.mem_cons.mp hx with rfl | hmem
      · exact absurd hxc hs
      · exact ih _ ⟨x, hmem, hxc⟩

/-- C5: over a well-formed device-description document listing a sequence
of services, `parse_service_urls` returns a present common-interface URL
exactly when some listed service's type contains the substring
`WANCommonInterfaceConfig`; with no such service it fails with the
service-not-found error (the absence of a `WANIPConnection` service alone
never causes an error). -/
theorem parse_service_urls_requires_common (svcs : List SvcEntry) (base : String) :
    ((∃ c ip, parse_service_urls (encodeServices svcs) base = .ok (some c, ip)) ↔
      hasCommonService svcs = true) ∧
    (hasCommonService svcs = false →
      parse_service_urls (encodeServices svcs) base = .error .serviceNotFound) := by
  have hloop := serviceLoop_encodeServices svcs initSState
  have hnone : hasCommonService svcs = false →
      (svcs.foldl applyService initSState).wan_common_url = none := by
    intro hfalse
    rw [foldl_applyService_of_no_common]
    · rfl
    · intro s hs
      have := List.any_eq_false.mp (by simpa [hasCommonService] using hfalse) s hs
      simpa using this
  constructor
  · constructor
    · rintro ⟨c, ip, hok⟩
      by_contra hcf
      have hfalse : hasCommonService svcs = false := by
        simpa using hcf
      simp [parse_service_urls, hloop, hnone hfalse] at hok
    · intro htrue
      have hex : ∃ s ∈ svcs, strContains s.serviceType "WANCommonInterfaceConfig" = true := by
        simpa [hasCommonService] using htrue
      have hs := foldl_applyService_of_common svcs initSState hex
      obtain ⟨v, hv⟩ := Option.isSome_iff_exists.mp hs
      refine ⟨v, (svcs.foldl applyService initSState).wan_ip_url, ?_⟩
      simp [parse_service_urls, hloop, hv]
  · intro hfalse
    simp [parse_service_urls, hloop, hnone hfalse]

/-- Witness for C5: a document with only a `WANIPConnection` service fails
with service-not-found, a document with a `WANCommonInterfaceConfig`
service (and no `WANIPConnection`) succeeds with a present common URL. -/
theorem parse_service_urls_requires_common_witness :
    hasCommonService [{ serviceType := "urn:schemas-upnp-org:service:WANIPConnection:1",
                        controlURL := "/ctl" }] = false ∧
    parse_service_urls
      (encodeServices [{ serviceType := "urn:schemas-upnp-org:service:WANIPConnection:1",
                         controlURL := "/ctl" }]) "base" = .error .serviceNotFound ∧
    (∃ c ip, parse_service_urls
      (encodeServices [{ serviceType := "urn:schemas-upnp-org:service:WANCommonInterfaceConfig:1",
                         controlURL := "/c" }]) "base" = .ok (some c, ip)) := by
  refine ⟨by decide, (parse_service_urls_requires_common _ "base").2 (by decide),
    (parse_service_urls_requires_common _ "base").1.mpr (by decide)⟩
